import Mathlib

set_option maxRecDepth 16384

/-!
Shallow embedding of the natural-language-to-SQL query compiler
(`src/NLP/enhanced_text_to_sql.py`, class `GitHubQueryAnalyzer`) together
with theorems settling the specification claims about it.

Machine strings are modelled by Lean `String`; Python's `Optional[int]`
repo identifier by `Option Int`.  The NLTK tokenizer and the regular
expressions used by the source are modelled by explicit recursive
scanners over character lists, documented at each definition.
-/

namespace EvoTrack

/-- `pfxL n h` : the character list `n` is a prefix of `h`. -/
def pfxL : List Char → List Char → Bool
  | [], _ => true
  | _ :: _, [] => false
  | a :: as, b :: bs => a == b && pfxL as bs

/-- `subL h n` : the character list `n` occurs contiguously inside `h`.
Models Python's substring containment operator `in` on strings. -/
def subL : List Char → List Char → Bool
  | [], n => n.isEmpty
  | c :: cs, n => pfxL n (c :: cs) || subL cs n

/-- Python `needle in haystack` (substring containment). -/
def containsSub (hay needle : String) : Bool :=
  subL hay.toList needle.toList

/-- `strStarts s p` : `p` is a prefix of `s` (Python `s.startswith(p)`). -/
def strStarts (s p : String) : Bool :=
  pfxL p.toList s.toList

/-- Python `str.lower()` (ASCII case folding suffices for this
compiler), written over the character list so it evaluates by
structural recursion. -/
def pyLower (s : String) : String :=
  String.mk (s.toList.map Char.toLower)

/-- Python `str.isalnum()`: nonempty and every character alphanumeric. -/
def pyIsAlnum (s : String) : Bool :=
  !s.toList.isEmpty && s.toList.all Char.isAlphanum

/-- The NLTK English stopword set used by `preprocess_text`
(`stopwords.words('english')`).  Entries containing an apostrophe
(e.g. the contracted forms) are omitted: they can never pass the
`isalnum` filter applied together with this set, so dropping them does
not change the behaviour of `preprocess_text`. -/
def stopWords : List String :=
  ["i", "me", "my", "myself", "we", "our", "ours", "ourselves", "you",
   "your", "yours", "yourself", "yourselves", "he", "him", "his",
   "himself", "she", "her", "hers", "herself", "it", "its", "itself",
   "they", "them", "their", "theirs", "themselves", "what", "which",
   "who", "whom", "this", "that", "these", "those", "am", "is", "are",
   "was", "were", "be", "been", "being", "have", "has", "had", "having",
   "do", "does", "did", "doing", "a", "an", "the", "and", "but", "if",
   "or", "because", "as", "until", "while", "of", "at", "by", "for",
   "with", "about", "against", "between", "into", "through", "during",
   "before", "after", "above", "below", "to", "from", "up", "down",
   "in", "out", "on", "off", "over", "under", "again", "further",
   "then", "once", "here", "there", "when", "where", "why", "how",
   "all", "any", "both", "each", "few", "more", "most", "other",
   "some", "such", "no", "nor", "not", "only", "own", "same", "so",
   "than", "too", "very", "s", "t", "can", "will", "just", "don",
   "should", "now", "d", "ll", "m", "o", "re", "ve", "y", "ain",
   "aren", "couldn", "didn", "doesn", "hadn", "hasn", "haven", "isn",
   "ma", "mightn", "mustn", "needn", "shan", "shouldn", "wasn",
   "weren", "won", "wouldn"]

/-- Whitespace splitter: the first argument accumulates the current
word (reversed), words are emitted at whitespace and at the end. -/
def wsTokens : List Char → List Char → List String
  | acc, [] => if acc.isEmpty then [] else [String.mk acc.reverse]
  | acc, c :: cs =>
    if c.isWhitespace then
      (if acc.isEmpty then [] else [String.mk acc.reverse]) ++ wsTokens [] cs
    else wsTokens (c :: acc) cs

/-- Models NLTK `word_tokenize` restricted to the whitespace-separated
inputs this development evaluates it on: the text is split at
whitespace.  (The Treebank tokenizer additionally detaches punctuation
such as a trailing `?`, which none of the concrete inputs below carry;
hyphenated words like `re-commits` are kept whole by both.) -/
def wordTokenize (s : String) : List String :=
  wsTokens [] s.toList

/-- `GitHubQueryAnalyzer.preprocess_text` (lines 83-98): lowercase,
tokenize, keep alphanumeric non-stopword tokens.  The `except` branch
returning `[]` is unreachable in this total model. -/
def preprocess_text (text : String) : List String :=
  (wordTokenize (pyLower text)).filter
    (fun w => pyIsAlnum w && !(stopWords.contains w))

/-- The keyword → action table of `GitHubQueryAnalyzer.__init__`
(lines 30-42). -/
def keywords : List (String × String) :=
  [("show", "SELECT"), ("display", "SELECT"), ("find", "SELECT"),
   ("search", "SELECT"), ("list", "SELECT"), ("count", "SELECT COUNT(*)"),
   ("analyze", "SELECT"), ("top", "SELECT"), ("most", "SELECT"),
   ("track", "SELECT"), ("monitor", "SELECT")]

/-- One entry of the `entity_mapping` catalog (lines 45-71). -/
structure EntityInfo where
  key : String
  patterns : List String
  table : String
  columns : List String
  deriving Repr

/-- The `entity_mapping` catalog in its Python (insertion) order. -/
def entityMapping : List EntityInfo :=
  [⟨"repository", ["repository", "repositories", "repo", "repos"],
    "repositories", ["repo_id", "name", "url", "stars", "forks"]⟩,
   ⟨"author",
    ["author", "authors", "contributor", "contributors", "developer",
     "developers"],
    "authors", ["author_id", "name", "email"]⟩,
   ⟨"commit", ["commit", "commits", "change", "changes"],
    "commits",
    ["commit_id", "hash", "author_id", "repo_id", "timestamp", "message"]⟩,
   ⟨"file", ["file", "files", "document", "documents", "code"],
    "files", ["file_id", "repo_id", "path", "type", "status"]⟩,
   ⟨"diff",
    ["diff", "difference", "changes", "modification", "modifications"],
    "diffs",
    ["diff_id", "commit_id", "file_id", "lines_added", "lines_deleted",
     "change_type"]⟩]

/-- `GitHubQueryAnalyzer.identify_action` (lines 100-115): the first
token found in the keyword table decides the action; otherwise the
count/total/sum fallback; otherwise `SELECT`. -/
def identify_action (tokens : List String) : String :=
  match tokens.findSome?
      (fun tok => (keywords.find? (fun kv => kv.fst == tok)).map Prod.snd) with
  | some a => a
  | none =>
    if tokens.any (fun tok => ["count", "total", "sum"].contains tok) then
      "SELECT COUNT(*)"
    else "SELECT"

/-- `GitHubQueryAnalyzer.identify_table` (lines 117-131): first entity
in declared order whose synonym patterns intersect the token set. -/
def identify_table (words : List String) : Option String :=
  (entityMapping.find?
      (fun e : EntityInfo => e.patterns.any (fun p => words.contains p))).map
    (fun e : EntityInfo => e.table)

/-- Splitter at underscores for column base names (`col.split('_')`). -/
def splitUnderscore : List Char → List Char → List String
  | acc, [] => [String.mk acc.reverse]
  | acc, c :: cs =>
    if c == '_' then String.mk acc.reverse :: splitUnderscore [] cs
    else splitUnderscore (c :: acc) cs

/-- `col.split('_')[-1]`: the last underscore-delimited segment of a
column name (line 150). -/
def lastSegment (col : String) : String :=
  (splitUnderscore [] col.toList).getLastD col

/-- `GitHubQueryAnalyzer.identify_columns` (lines 133-170). -/
def identify_columns (words : List String) (table : Option String) :
    List String :=
  if words.any (fun w => ["count", "how many", "total"].contains w) then
    ["COUNT(*)"]
  else
    let tableInfo :=
      match table with
      | some t => entityMapping.find? (fun e : EntityInfo => e.table == t)
      | none => none
    match tableInfo with
    | none => ["*"]
    | some info =>
      let columns := info.columns.filter
        (fun col : String => words.contains (lastSegment col))
      if columns ≠ [] then columns
      else if table == some "repositories" then
        ["repo_id", "name", "stars", "forks"]
      else if table == some "authors" then ["author_id", "name", "email"]
      else if table == some "commits" then ["commit_id", "hash", "timestamp"]
      else if table == some "files" then ["file_id", "path", "type", "status"]
      else if table == some "diffs" then
        ["diff_id", "lines_added", "lines_deleted"]
      else ["*"]

/-- Scanner modelling `re.search(r'(\d+)\s*W', t)` for a literal word
`W` starting with a non-digit, non-whitespace character (here `stars`
or `forks`), returning `group(1)`: positions are tried left to right;
at a digit, the maximal digit run is read, whitespace is skipped, and
the literal must follow.  Greedy matching with backtracking coincides
with this scan because the digit, whitespace and word character classes
are disjoint. -/
def numWordScan (w : List Char) : List Char → Option String
  | [] => none
  | c :: cs =>
    if c.isDigit then
      let ds := (c :: cs).takeWhile Char.isDigit
      let rest :=
        ((c :: cs).dropWhile Char.isDigit).dropWhile Char.isWhitespace
      if pfxL w rest then some (String.mk ds) else numWordScan w cs
    else numWordScan w cs

/-- Python regex word character (`\w`, ASCII range). -/
def isWordChar (c : Char) : Bool :=
  c.isAlphanum || c == '_'

/-- Scanner modelling `re.search(r"\bKW\s+(\d+)\b", t)` for a literal
keyword `KW` (here `top` / `bottom`), returning `group(1)`.  The flag
records whether the previous character was a word character (for the
leading `\b`); the trailing `\b` demands a non-word character or the
end of input after the maximal digit run. -/
def kwNumScan (kw : List Char) : Bool → List Char → Option String
  | _, [] => none
  | prevWord, c :: cs =>
    if !prevWord && pfxL kw (c :: cs) then
      let rest := (c :: cs).drop kw.length
      let ws := rest.takeWhile Char.isWhitespace
      let r2 := rest.dropWhile Char.isWhitespace
      let ds := r2.takeWhile Char.isDigit
      let r3 := r2.drop ds.length
      if ws ≠ [] && ds ≠ [] &&
          (match r3 with | [] => true | d :: _ => !(isWordChar d)) then
        some (String.mk ds)
      else kwNumScan kw (isWordChar c) cs
    else kwNumScan kw (isWordChar c) cs

/-- `re.search(r"\btop\s+(\d+)\b", text_lower)` of line 277. -/
def topNum (t : String) : Option String :=
  kwNumScan "top".toList false t.toList

/-- `re.search(r"\bbottom\s+(\d+)\b", text_lower)` of line 306. -/
def bottomNum (t : String) : Option String :=
  kwNumScan "bottom".toList false t.toList

/-- The star-count block of `identify_conditions` (lines 179-188),
appending at most one condition. -/
def starConds (t : String) : List String :=
  if containsSub t "stars" then
    match numWordScan "stars".toList t.toList with
    | some num =>
      if containsSub t "more than" || containsSub t "greater than" then
        ["stars >= " ++ num]
      else if containsSub t "less than" then ["stars <= " ++ num]
      else ["stars = " ++ num]
    | none => []
  else []

/-- The fork-count block of `identify_conditions` (lines 191-200). -/
def forkConds (t : String) : List String :=
  if containsSub t "forks" then
    match numWordScan "forks".toList t.toList with
    | some num =>
      if containsSub t "more than" || containsSub t "greater than" then
        ["forks >= " ++ num]
      else if containsSub t "less than" then ["forks <= " ++ num]
      else ["forks = " ++ num]
    | none => []
  else []

/-- The time-based block of `identify_conditions` (lines 203-206). -/
def timeConds (t : String) : List String :=
  if containsSub t "this month" then
    ["EXTRACT(MONTH FROM created_at) = EXTRACT(MONTH FROM CURRENT_DATE) AND EXTRACT(YEAR FROM created_at) = EXTRACT(YEAR FROM CURRENT_DATE)"]
  else if containsSub t "last month" then
    ["created_at >= DATE_TRUNC(\x27month\x27, CURRENT_DATE - INTERVAL \x271 month\x27) AND created_at < DATE_TRUNC(\x27month\x27, CURRENT_DATE)"]
  else []

/-- `GitHubQueryAnalyzer.identify_conditions` (lines 172-211): star
conditions, then fork conditions, then time-based conditions, appended
to one list in that order. -/
def identify_conditions (text : String) : List String :=
  starConds (pyLower text) ++ forkConds (pyLower text) ++
    timeConds (pyLower text)

/-- The direction-word resolution shared by the star and fork branches
of `identify_conditions`: the phrases are searched in the whole
lowercased text, `more than`/`greater than` taking precedence. -/
def gOp (t : String) : String :=
  if containsSub t "more than" || containsSub t "greater than" then ">="
  else if containsSub t "less than" then "<="
  else "="

/-- The star count extracted by `identify_conditions` (guard plus
regex), `none` when no star condition is produced. -/
def starNum (t : String) : Option String :=
  if containsSub t "stars" then numWordScan "stars".toList t.toList
  else none

/-- The fork count extracted by `identify_conditions`. -/
def forkNum (t : String) : Option String :=
  if containsSub t "forks" then numWordScan "forks".toList t.toList
  else none

/-- A special-case template: a predicate on the lowercased input text
and a rendering function over the lowercased text and the optional
caller-supplied `repo_id`.  The source writes these as an `if` chain in
`build_sql_query` (lines 224-352); the chain is represented here as the
ordered list `templateBank`, first predicate to hold winning. -/
structure Template where
  pred : String → Bool
  render : String → Option Int → String

/-- Lines 224-245: which author introduced the most bugs. -/
def tBugIntro : Template :=
  ⟨fun tl =>
    (containsSub tl "author" || containsSub tl "contributor" ||
     containsSub tl "developer") &&
    containsSub tl "introduc" && containsSub tl "bug",
   fun _ repo =>
    match repo with
    | some r =>
      "SELECT authors.name, COUNT(bugs.bug_id) AS bugs_introduced FROM bugs JOIN commits ON bugs.introduced_commit = commits.commit_id JOIN authors ON commits.author_id = authors.author_id WHERE commits.repo_id = "
        ++ toString r ++
        " GROUP BY authors.author_id, authors.name ORDER BY bugs_introduced DESC LIMIT 1;"
    | none =>
      "SELECT authors.name, COUNT(bugs.bug_id) AS bugs_introduced FROM bugs JOIN commits ON bugs.introduced_commit = commits.commit_id JOIN authors ON commits.author_id = authors.author_id GROUP BY authors.author_id, authors.name ORDER BY bugs_introduced DESC LIMIT 1;"⟩

/-- The optional `WHERE commits.repo_id = {repo_id} ` fragment shared
by several templates. -/
def repoWhere (repo : Option Int) : String :=
  match repo with
  | some r => "WHERE commits.repo_id = " ++ toString r ++ " "
  | none => ""

/-- Lines 249-256: most changed file. -/
def tMostChangedFile : Template :=
  ⟨fun tl =>
    containsSub tl "most" && containsSub tl "file" &&
    (containsSub tl "change" || containsSub tl "changes" ||
     containsSub tl "lines"),
   fun _ repo =>
    "SELECT files.path AS most_changed_file, SUM(diffs.lines_added + diffs.lines_deleted) AS total_changes FROM files JOIN diffs ON files.file_id = diffs.file_id JOIN commits ON diffs.commit_id = commits.commit_id "
      ++ repoWhere repo ++
      "GROUP BY files.file_id, files.path ORDER BY total_changes DESC LIMIT 1;"⟩

/-- Lines 259-265: file with most additions. -/
def tMostAdded : Template :=
  ⟨fun tl =>
    containsSub tl "most" && containsSub tl "file" &&
    (containsSub tl "addition" || containsSub tl "added"),
   fun _ repo =>
    "SELECT files.path AS most_added_file, SUM(diffs.lines_added) AS total_additions FROM files JOIN diffs ON files.file_id = diffs.file_id JOIN commits ON diffs.commit_id = commits.commit_id "
      ++ repoWhere repo ++
      "GROUP BY files.file_id, files.path ORDER BY total_additions DESC LIMIT 1;"⟩

/-- Lines 268-274: file with most deletions. -/
def tMostDeleted : Template :=
  ⟨fun tl =>
    containsSub tl "most" && containsSub tl "file" &&
    (containsSub tl "deletion" || containsSub tl "deleted"),
   fun _ repo =>
    "SELECT files.path AS most_deleted_file, SUM(diffs.lines_deleted) AS total_deletions FROM files JOIN diffs ON files.file_id = diffs.file_id JOIN commits ON diffs.commit_id = commits.commit_id "
      ++ repoWhere repo ++
      "GROUP BY files.file_id, files.path ORDER BY total_deletions DESC LIMIT 1;"⟩

/-- Lines 277-285: top N files by changes.  When invoked, the
predicate guarantees the `top N` match succeeded, so the `.getD` on
the render side never supplies its default. -/
def tTopNFiles : Template :=
  ⟨fun tl => (topNum tl).isSome && containsSub tl "file",
   fun tl repo =>
    "SELECT files.path, SUM(diffs.lines_added + diffs.lines_deleted) AS total_changes FROM files JOIN diffs ON files.file_id = diffs.file_id JOIN commits ON diffs.commit_id = commits.commit_id "
      ++ repoWhere repo ++
      "GROUP BY files.file_id, files.path ORDER BY total_changes DESC LIMIT "
      ++ (topNum tl).getD "" ++ ";"⟩

/-- Lines 288-294: top contributor (single). -/
def tTopContributor : Template :=
  ⟨fun tl =>
    containsSub tl "which developer contributed the most" ||
    (containsSub tl "most" &&
     (containsSub tl "developer" || containsSub tl "author" ||
      containsSub tl "contributor") &&
     (containsSub tl "commit" || containsSub tl "commits" ||
      containsSub tl "contributed")),
   fun _ repo =>
    "SELECT authors.name AS top_contributor, COUNT(commits.commit_id) AS commit_count FROM commits JOIN authors ON commits.author_id = authors.author_id "
      ++ repoWhere repo ++
      "GROUP BY authors.author_id, authors.name ORDER BY commit_count DESC LIMIT 1;"⟩

/-- Lines 297-298: top contributors by commit (fixed LIMIT 10, no
repo_id scoping in the source). -/
def tTopContribByCommit : Template :=
  ⟨fun tl => containsSub tl "top contributors by commit",
   fun _ _ =>
    "SELECT authors.name, COUNT(commits.commit_id) as commit_count FROM authors JOIN commits ON authors.author_id = commits.author_id GROUP BY authors.author_id, authors.name ORDER BY commit_count DESC LIMIT 10;"⟩

/-- Lines 301-303: top N contributors by commit (no repo_id scoping in
the source). -/
def tTopNContributors : Template :=
  ⟨fun tl => (topNum tl).isSome && containsSub tl "contributor",
   fun tl _ =>
    "SELECT authors.name, COUNT(commits.commit_id) as commit_count FROM authors JOIN commits ON authors.author_id = commits.author_id GROUP BY authors.author_id, authors.name ORDER BY commit_count DESC LIMIT "
      ++ (topNum tl).getD "" ++ ";"⟩

/-- Lines 306-314: bottom N contributors by commit (default N = 3). -/
def tBottomNContributors : Template :=
  ⟨fun tl =>
    ((bottomNum tl).isSome || containsSub tl "bottom") &&
    (containsSub tl "contributor" || containsSub tl "contributors" ||
     containsSub tl "author" || containsSub tl "authors" ||
     containsSub tl "developer" || containsSub tl "developers"),
   fun tl repo =>
    "SELECT authors.name AS name, COUNT(commits.commit_id) AS commit_count FROM commits JOIN authors ON commits.author_id = authors.author_id "
      ++ repoWhere repo ++
      "GROUP BY authors.author_id, authors.name ORDER BY commit_count ASC LIMIT "
      ++ (bottomNum tl).getD "3" ++ ";"⟩

/-- Lines 317-318: commits from last 30 days (always carries a
timestamp WHERE clause, never a repo_id one). -/
def tCommitsLast30 : Template :=
  ⟨fun tl => containsSub tl "commits from last 30 days",
   fun _ _ =>
    "SELECT commits.commit_id, authors.name, repositories.name as repo_name, commits.message, commits.timestamp FROM commits JOIN authors ON commits.author_id = authors.author_id JOIN repositories ON commits.repo_id = repositories.repo_id WHERE commits.timestamp >= CURRENT_DATE - INTERVAL 30 DAY ORDER BY commits.timestamp DESC;"⟩

/-- Lines 321-322: most active developer in last 30 days. -/
def tMostActiveDev30 : Template :=
  ⟨fun tl =>
    containsSub tl "last 30 days" &&
    (containsSub tl "developer" || containsSub tl "author" ||
     containsSub tl "contributor") &&
    (containsSub tl "most" || containsSub tl "top"),
   fun _ _ =>
    "SELECT authors.name AS top_contributor, COUNT(commits.commit_id) AS commit_count FROM commits JOIN authors ON commits.author_id = authors.author_id WHERE commits.timestamp >= CURRENT_DATE - INTERVAL 30 DAY GROUP BY authors.author_id, authors.name ORDER BY commit_count DESC LIMIT 1;"⟩

/-- Lines 324-327: count commits.  The scoping fragment here is
`WHERE repo_id = {repo_id} ` (no table prefix), and the statement ends
with that fragment's trailing space before the semicolon. -/
def tCountCommits : Template :=
  ⟨fun tl =>
    (containsSub tl "how many" || containsSub tl "count") &&
    containsSub tl "commit",
   fun _ repo =>
    "SELECT COUNT(*) AS total_commits FROM commits "
      ++ (match repo with
          | some r => "WHERE repo_id = " ++ toString r ++ " "
          | none => "")
      ++ ";"⟩

/-- Lines 330-333: count contributors. -/
def tCountContributors : Template :=
  ⟨fun tl =>
    (containsSub tl "how many" || containsSub tl "count") &&
    (containsSub tl "contributor" || containsSub tl "author" ||
     containsSub tl "developer"),
   fun _ repo =>
    match repo with
    | some r =>
      "SELECT COUNT(DISTINCT commits.author_id) AS contributors FROM commits WHERE commits.repo_id = "
        ++ toString r ++ ";"
    | none =>
      "SELECT COUNT(DISTINCT authors.author_id) AS contributors FROM authors;"⟩

/-- Lines 336-338: commit with most changes. -/
def tCommitMostChanges : Template :=
  ⟨fun tl =>
    containsSub tl "which commit" &&
    (containsSub tl "most" && containsSub tl "change"),
   fun _ repo =>
    "SELECT commits.hash AS top_commit, SUM(diffs.lines_added + diffs.lines_deleted) AS total_changes FROM commits JOIN diffs ON commits.commit_id = diffs.commit_id "
      ++ repoWhere repo ++
      "GROUP BY commits.commit_id, commits.hash ORDER BY total_changes DESC LIMIT 1;"⟩

/-- Lines 341-344: developer who fixed the most bugs. -/
def tBugFixer : Template :=
  ⟨fun tl =>
    (containsSub tl "developer" || containsSub tl "author" ||
     containsSub tl "contributor") &&
    (containsSub tl "fix" || containsSub tl "fixed") &&
    containsSub tl "bug",
   fun _ repo =>
    "SELECT authors.name AS top_fixer, COUNT(bugs.bug_id) AS bugs_fixed FROM bugs JOIN commits ON bugs.fixed_commit = commits.commit_id JOIN authors ON commits.author_id = authors.author_id "
      ++ repoWhere repo ++
      "GROUP BY authors.author_id, authors.name ORDER BY bugs_fixed DESC LIMIT 1;"⟩

/-- Lines 347-348: repository with most changes (no repo_id scoping in
the source). -/
def tRepoMostChanges : Template :=
  ⟨fun tl =>
    containsSub tl "repository" && containsSub tl "most" &&
    (containsSub tl "change" || containsSub tl "changes"),
   fun _ _ =>
    "SELECT repositories.name AS top_repository, SUM(diffs.lines_added + diffs.lines_deleted) AS total_changes FROM repositories JOIN commits ON repositories.repo_id = commits.repo_id JOIN diffs ON commits.commit_id = diffs.commit_id GROUP BY repositories.repo_id, repositories.name ORDER BY total_changes DESC LIMIT 1;"⟩

/-- Lines 351-352: count commits per repository (no repo_id scoping in
the source). -/
def tCountCommitsPerRepo : Template :=
  ⟨fun tl => containsSub tl "count commits per repository",
   fun _ _ =>
    "SELECT repositories.name, COUNT(commits.commit_id) as commit_count FROM repositories LEFT JOIN commits ON repositories.repo_id = commits.repo_id GROUP BY repositories.repo_id, repositories.name ORDER BY commit_count DESC;"⟩

/-- The special-case template bank in the order the source's `if`
chain tests the predicates (lines 224-352). -/
def templateBank : List Template :=
  [tBugIntro, tMostChangedFile, tMostAdded, tMostDeleted, tTopNFiles,
   tTopContributor, tTopContribByCommit, tTopNContributors,
   tBottomNContributors, tCommitsLast30, tMostActiveDev30,
   tCountCommits, tCountContributors, tCommitMostChanges, tBugFixer,
   tRepoMostChanges, tCountCommitsPerRepo]

/-- The GROUP BY branch of the generic assembler (lines 380-384): it
compares the table name against the capitalized literals `Repository`
and `Author` and otherwise adds nothing. -/
def groupByFragment (needsGroupBy : Bool) (table : String) : String :=
  if needsGroupBy then
    if table == "Repository" then
      " GROUP BY Repository.repo_id, Repository.name"
    else if table == "Author" then
      " GROUP BY Author.author_id, Author.name"
    else ""
  else ""

/-- The generic path of `build_sql_query` (lines 354-395): component
extraction and best-effort clause assembly, reached when no template
predicate held.  The caller-supplied `repo_id` is not consulted
anywhere on this path in the source. -/
def genericCompile (tokens : List String) (text : String) : String :=
  let tl := pyLower text
  let action := identify_action tokens
  match identify_table tokens with
  | none => "Error: Could not identify the table"
  | some table =>
    let columns := identify_columns tokens (some table)
    let conditions := identify_conditions text
    let needsGroupBy :=
      ["per", "group by", "count by"].any (fun w => containsSub tl w)
    let q1 := action ++ " " ++ String.intercalate ", " columns
      ++ " FROM " ++ table
    let q2 :=
      if containsSub tl "author" && table == "commits" then
        q1 ++ " JOIN authors ON commits.author_id = authors.author_id"
      else q1
    let q3 :=
      if containsSub tl "repository" && table == "commits" then
        q2 ++ " JOIN repositories ON commits.repo_id = repositories.repo_id"
      else q2
    let q4 :=
      if conditions ≠ [] then
        q3 ++ " WHERE " ++ String.intercalate " AND " conditions
      else q3
    let q5 := q4 ++ groupByFragment needsGroupBy table
    let q6 :=
      if ["top", "most", "highest"].any (fun w => containsSub tl w) then
        if containsSub tl "commit" then q5 ++ " ORDER BY commit_count DESC"
        else if containsSub tl "stars" then q5 ++ " ORDER BY stars DESC"
        else if containsSub tl "forks" then q5 ++ " ORDER BY forks DESC"
        else q5
      else q5
    q6 ++ ";"

/-- `GitHubQueryAnalyzer.build_sql_query` (lines 213-399): preprocess,
reject empty token lists, test the special-case templates against the
lowercased raw text in declared order, otherwise assemble generically.
The outer `except` branch returning
`"Error: Could not generate SQL query"` is unreachable in this total
model. -/
def build_sql_query (text : String) (repo : Option Int) : String :=
  if (preprocess_text text).isEmpty then
    "Error: Could not process the input text"
  else
    match templateBank.find? (fun t => t.pred (pyLower text)) with
    | some t => t.render (pyLower text) repo
    | none => genericCompile (preprocess_text text) text

/-! ### Helper lemmas about the string model -/

theorem pfxL_append :
    ∀ (n a b : List Char), pfxL n a = true → pfxL n (a ++ b) = true
  | [], _, _, _ => rfl
  | _ :: _, [], _, h => by simp [pfxL] at h
  | x :: xs, y :: ys, b, h => by
    simp only [pfxL, Bool.and_eq_true, beq_iff_eq] at h
    simp only [List.cons_append, pfxL, Bool.and_eq_true, beq_iff_eq]
    exact ⟨h.1, pfxL_append xs ys b h.2⟩

theorem pfxL_refl : ∀ (l : List Char), pfxL l l = true
  | [] => rfl
  | x :: xs => by simp [pfxL, pfxL_refl xs]

theorem subL_of_pfxL (h n : List Char) (hp : pfxL n h = true) :
    subL h n = true := by
  cases h with
  | nil => cases n with
    | nil => rfl
    | cons x xs => simp [pfxL] at hp
  | cons c cs => simp only [subL, Bool.or_eq_true]; exact Or.inl hp

theorem subL_append_left :
    ∀ (a b n : List Char), subL a n = true → subL (a ++ b) n = true
  | [], b, n, h => by
    simp only [subL, List.isEmpty_iff] at h
    subst h
    cases b with
    | nil => rfl
    | cons c cs => simp [subL, pfxL]
  | c :: cs, b, n, h => by
    simp only [subL, Bool.or_eq_true] at h
    simp only [List.cons_append, subL, Bool.or_eq_true]
    rcases h with h | h
    · exact Or.inl (pfxL_append _ _ _ h)
    · exact Or.inr (subL_append_left cs b n h)

theorem subL_append_right :
    ∀ (a b n : List Char), subL b n = true → subL (a ++ b) n = true
  | [], _, _, h => h
  | c :: cs, b, n, h => by
    simp only [List.cons_append, subL, Bool.or_eq_true]
    exact Or.inr (subL_append_right cs b n h)

theorem mem_of_subL_cons :
    ∀ (h : List Char) (x : Char) (r : List Char),
      subL h (x :: r) = true → x ∈ h
  | [], x, r, hs => by simp [subL] at hs
  | c :: cs, x, r, hs => by
    simp only [subL, Bool.or_eq_true] at hs
    rcases hs with h1 | h2
    · simp only [pfxL, Bool.and_eq_true, beq_iff_eq] at h1
      exact h1.1 ▸ List.mem_cons_self c cs
    · exact List.mem_cons_of_mem _ (mem_of_subL_cons cs x r h2)

theorem toList_append (a b : String) :
    (a ++ b).toList = a.toList ++ b.toList := rfl

theorem strStarts_append (a b p : String) (h : strStarts a p = true) :
    strStarts (a ++ b) p = true := by
  unfold strStarts at *
  rw [toList_append]
  exact pfxL_append _ _ _ h

theorem containsSub_append_left (a b n : String)
    (h : containsSub a n = true) : containsSub (a ++ b) n = true := by
  unfold containsSub at *
  rw [toList_append]
  exact subL_append_left _ _ _ h

theorem containsSub_append_right (a b n : String)
    (h : containsSub b n = true) : containsSub (a ++ b) n = true := by
  unfold containsSub at *
  rw [toList_append]
  exact subL_append_right _ _ _ h

theorem containsSub_of_strStarts (s p : String)
    (h : strStarts s p = true) : containsSub s p = true :=
  subL_of_pfxL _ _ h

/-- A string none of whose characters is `W` cannot contain `WHERE`. -/
theorem not_containsSub_WHERE (s : String)
    (h : 'W' ∉ s.toList) : containsSub s "WHERE" = false := by
  cases hc : containsSub s "WHERE" with
  | false => rfl
  | true => exact absurd (mem_of_subL_cons s.toList 'W' "HERE".toList hc) h

/-- A string starting with `SELECT` differs from any string starting
with `E`; specialised to the two error strings of the compiler. -/
theorem strStarts_SELECT_ne_errors (s : String)
    (h : strStarts s "SELECT" = true) :
    s ≠ "Error: Could not process the input text" ∧
    s ≠ "Error: Could not identify the table" := by
  constructor <;> (intro he; subst he; simp [strStarts, pfxL] at h)

theorem numWordScan_digits :
    ∀ (w l : List Char) (s : String), numWordScan w l = some s →
      ∀ c ∈ s.toList, c.isDigit = true
  | _, [], _, h => by simp [numWordScan] at h
  | w, c :: cs, s, h => by
    rw [numWordScan] at h
    split at h
    · dsimp only at h
      split at h
      · injection h with h
        subst h
        intro ch hch
        exact List.mem_takeWhile_imp hch
      · exact numWordScan_digits w cs s h
    · exact numWordScan_digits w cs s h

theorem kwNumScan_digits :
    ∀ (kw : List Char) (p : Bool) (l : List Char) (s : String),
      kwNumScan kw p l = some s → ∀ c ∈ s.toList, c.isDigit = true
  | _, _, [], _, h => by simp [kwNumScan] at h
  | kw, p, c :: cs, s, h => by
    rw [kwNumScan] at h
    split at h
    · dsimp only at h
      split at h
      · injection h with h
        subst h
        intro ch hch
        exact List.mem_takeWhile_imp hch
      · exact kwNumScan_digits kw (isWordChar c) cs s h
    · exact kwNumScan_digits kw (isWordChar c) cs s h

theorem topNum_getD_digits (tl : String) :
    ∀ c ∈ ((topNum tl).getD "").toList, c ≠ 'W' := by
  cases ht : topNum tl with
  | none => simp
  | some s =>
    intro c hc
    have := kwNumScan_digits _ _ _ _ ht c hc
    intro he
    subst he
    simp [Char.isDigit] at this

theorem bottomNum_getD_digits (tl : String) :
    ∀ c ∈ ((bottomNum tl).getD "3").toList, c ≠ 'W' := by
  cases ht : bottomNum tl with
  | none => simp +decide
  | some s =>
    intro c hc
    have := kwNumScan_digits _ _ _ _ ht c hc
    intro he
    subst he
    simp [Char.isDigit] at this

/-! ### Structural lemmas about the compiler -/

/-- Every template of the bank renders a string starting with
`SELECT`, whatever the text and the optional repository id. -/
theorem render_starts_SELECT (t : Template) (ht : t ∈ templateBank)
    (tl : String) (repo : Option Int) :
    strStarts (t.render tl repo) "SELECT" = true := by
  simp only [templateBank, List.mem_cons, List.not_mem_nil, or_false] at ht
  rcases ht with rfl | rfl | rfl | rfl | rfl | rfl | rfl | rfl | rfl |
    rfl | rfl | rfl | rfl | rfl | rfl | rfl | rfl
  all_goals cases repo
  all_goals dsimp only [Template.render, tBugIntro, tMostChangedFile,
    tMostAdded, tMostDeleted, tTopNFiles, tTopContributor,
    tTopContribByCommit, tTopNContributors, tBottomNContributors,
    tCommitsLast30, tMostActiveDev30, tCountCommits, tCountContributors,
    tCommitMostChanges, tBugFixer, tRepoMostChanges, tCountCommitsPerRepo]
  all_goals repeat apply strStarts_append
  all_goals decide

/-- `identify_action` only ever produces the two SELECT actions. -/
theorem identify_action_cases (tokens : List String) :
    identify_action tokens = "SELECT" ∨
    identify_action tokens = "SELECT COUNT(*)" := by
  unfold identify_action
  cases hfs : tokens.findSome?
      (fun tok =>
        (keywords.find? (fun kv => kv.fst == tok)).map Prod.snd) with
  | none =>
    dsimp only
    split
    · exact Or.inr rfl
    · exact Or.inl rfl
  | some a =>
    obtain ⟨tok, _, hf⟩ := List.exists_of_findSome?_eq_some hfs
    cases hkv : keywords.find? (fun kv => kv.fst == tok) with
    | none => rw [hkv] at hf; simp at hf
    | some kv =>
      rw [hkv] at hf
      simp only [Option.map_some', Option.some.injEq] at hf
      have hmem := List.mem_of_find?_eq_some hkv
      have hsnd : kv.2 = "SELECT" ∨ kv.2 = "SELECT COUNT(*)" := by
        fin_cases hmem <;> simp
      rw [← hf]
      exact hsnd

/-- The generic path either fails with the table error or emits a
statement starting with `SELECT`. -/
theorem genericCompile_cases (tokens : List String) (text : String) :
    genericCompile tokens text = "Error: Could not identify the table" ∨
    strStarts (genericCompile tokens text) "SELECT" = true := by
  unfold genericCompile
  cases identify_table tokens with
  | none => exact Or.inl rfl
  | some table =>
    right
    dsimp only
    repeat' first
      | apply strStarts_append
      | split
    all_goals rcases identify_action_cases tokens with h | h <;>
      rw [h] <;> decide

/-- A prefix test does not look past the end of the first summand. -/
theorem pfxL_append_eq :
    ∀ (n a b : List Char), n.length ≤ a.length →
      pfxL n (a ++ b) = pfxL n a
  | [], _, _, _ => rfl
  | x :: xs, [], _, h => by simp at h
  | x :: xs, y :: ys, b, h => by
    simp only [List.cons_append, pfxL]
    congr 1
    exact pfxL_append_eq xs ys b (by simpa using h)

theorem strStarts_append_eq (a b p : String)
    (h : p.toList.length ≤ a.toList.length) :
    strStarts (a ++ b) p = strStarts a p := by
  unfold strStarts
  rw [toList_append]
  exact pfxL_append_eq _ _ _ h

theorem containsSub_repoWhere_some (r : Int) :
    containsSub (repoWhere (some r)) "WHERE" = true := by
  unfold repoWhere
  exact containsSub_of_strStarts _ _
    (strStarts_append _ _ _ (strStarts_append _ _ _ (by decide)))

/-- Any render of the shape `a ++ repoWhere (some r) ++ b` mentions
`WHERE`. -/
theorem containsSub_WHERE_mid (a b : String) (r : Int) :
    containsSub (a ++ repoWhere (some r) ++ b) "WHERE" = true :=
  containsSub_append_left _ _ _
    (containsSub_append_right _ _ _ (containsSub_repoWhere_some r))

/-- `find?` returns the element at index `i` when it satisfies the
predicate and everything before it does not. -/
theorem find?_of_take_all {α : Type} (p : α → Bool) :
    ∀ (l : List α) (i : Nat) (e : α), l.get? i = some e → p e = true →
      (l.take i).all (fun x => !p x) = true → l.find? p = some e
  | [], i, _, hget, _, _ => by simp at hget
  | a :: as, 0, e, hget, hp, _ => by
    simp only [List.get?] at hget
    injection hget with hget
    subst hget
    exact List.find?_cons_of_pos _ hp
  | a :: as, i + 1, e, hget, hp, hall => by
    simp only [List.get?] at hget
    simp only [List.take, List.all_cons, Bool.and_eq_true,
      Bool.not_eq_true'] at hall
    rw [List.find?_cons_of_neg _ (by simp [hall.1]),
      find?_of_take_all p as i e hget hp (by simpa using hall.2)]

/-- With a nonempty token list, the compiler proceeds past the
emptiness check to the template bank (and, failing that, the generic
path). -/
theorem build_eq_nonempty (text : String) (repo : Option Int)
    (h : preprocess_text text ≠ []) :
    build_sql_query text repo =
      match templateBank.find? (fun t => t.pred (pyLower text)) with
      | some t => t.render (pyLower text) repo
      | none => genericCompile (preprocess_text text) text := by
  unfold build_sql_query
  rw [if_neg (by simpa using h)]

/-- With a nonempty token list, the compiler either renders a template,
or assembles generically, or reports the missing-table error; in every
case the result is not the EmptyInput error. -/
theorem build_nonempty_cases (text : String) (repo : Option Int)
    (h : preprocess_text text ≠ []) :
    strStarts (build_sql_query text repo) "SELECT" = true ∨
    build_sql_query text repo = "Error: Could not identify the table" := by
  rw [build_eq_nonempty text repo h]
  cases hfind : templateBank.find? (fun t => t.pred (pyLower text)) with
  | some t =>
    exact Or.inl
      (render_starts_SELECT t (List.mem_of_find?_eq_some hfind) _ _)
  | none =>
    rcases genericCompile_cases (preprocess_text text) text with hg | hg
    · exact Or.inr hg
    · exact Or.inl hg

/-- Result trichotomy of the compiler. -/
theorem build_result_cases (text : String) (repo : Option Int) :
    build_sql_query text repo = "Error: Could not process the input text" ∨
    build_sql_query text repo = "Error: Could not identify the table" ∨
    strStarts (build_sql_query text repo) "SELECT" = true := by
  by_cases h : preprocess_text text = []
  · left
    unfold build_sql_query
    rw [h]
    rfl
  · rcases build_nonempty_cases text repo h with hs | hn
    · exact Or.inr (Or.inr hs)
    · exact Or.inr (Or.inl hn)

/-- A prefix test on a fourfold append only sees the first summand
when that summand is long enough. -/
theorem strStarts_app3_eq (a g s m p : String)
    (h : p.toList.length ≤ a.toList.length) :
    strStarts (a ++ g ++ s ++ m) p = strStarts a p := by
  have h2 : p.toList.length ≤ (a ++ g).toList.length := by
    rw [toList_append, List.length_append]
    exact le_trans h (Nat.le_add_right _ _)
  have h3 : p.toList.length ≤ ((a ++ g) ++ s).toList.length := by
    rw [toList_append, List.length_append]
    exact le_trans h2 (Nat.le_add_right _ _)
  rw [strStarts_append_eq _ _ _ h3, strStarts_append_eq _ _ _ h2,
    strStarts_append_eq _ _ _ h]

/-- When the star guard and regex fire, the star block produces the
single condition with the globally resolved comparison operator. -/
theorem starConds_eq_of_some (t n : String) (h : starNum t = some n) :
    starConds t = ["stars " ++ gOp t ++ " " ++ n] := by
  unfold starNum at h
  split at h
  case isTrue hc =>
    unfold starConds gOp
    rw [if_pos hc, h]
    dsimp only
    by_cases h1 : (containsSub t "more than" ||
        containsSub t "greater than") = true
    · rw [if_pos h1, if_pos h1]
      rfl
    · rw [if_neg h1, if_neg h1]
      by_cases h2 : containsSub t "less than" = true
      · rw [if_pos h2, if_pos h2]
        rfl
      · rw [if_neg h2, if_neg h2]
        rfl
  case isFalse hc => exact absurd h (by simp)

theorem starConds_eq_nil (t : String) (h : starNum t = none) :
    starConds t = [] := by
  unfold starNum at h
  split at h
  case isTrue hc =>
    unfold starConds
    rw [if_pos hc, h]
  case isFalse hc =>
    unfold starConds
    rw [if_neg hc]

/-- Fork analogue of `starConds_eq_of_some`. -/
theorem forkConds_eq_of_some (t m : String) (h : forkNum t = some m) :
    forkConds t = ["forks " ++ gOp t ++ " " ++ m] := by
  unfold forkNum at h
  split at h
  case isTrue hc =>
    unfold forkConds gOp
    rw [if_pos hc, h]
    dsimp only
    by_cases h1 : (containsSub t "more than" ||
        containsSub t "greater than") = true
    · rw [if_pos h1, if_pos h1]
      rfl
    · rw [if_neg h1, if_neg h1]
      by_cases h2 : containsSub t "less than" = true
      · rw [if_pos h2, if_pos h2]
        rfl
      · rw [if_neg h2, if_neg h2]
        rfl
  case isFalse hc => exact absurd h (by simp)

theorem forkConds_eq_nil (t : String) (h : forkNum t = none) :
    forkConds t = [] := by
  unfold forkNum at h
  split at h
  case isTrue hc =>
    unfold forkConds
    rw [if_pos hc, h]
  case isFalse hc =>
    unfold forkConds
    rw [if_neg hc]

/-- The time block is empty or one condition that names neither
metric. -/
theorem timeConds_shape (t : String) :
    timeConds t = [] ∨
    ∃ s, timeConds t = [s] ∧ strStarts s "stars " = false ∧
      strStarts s "forks " = false := by
  unfold timeConds
  split
  · exact Or.inr ⟨_, rfl, by decide, by decide⟩
  · split
    · exact Or.inr ⟨_, rfl, by decide, by decide⟩
    · exact Or.inl rfl

/-- Condition strings of one metric start with that metric's name and
not the other's. -/
theorem metric_elem_starts (g n : String) :
    strStarts ("stars " ++ g ++ " " ++ n) "stars " = true ∧
    strStarts ("stars " ++ g ++ " " ++ n) "forks " = false ∧
    strStarts ("forks " ++ g ++ " " ++ n) "forks " = true ∧
    strStarts ("forks " ++ g ++ " " ++ n) "stars " = false := by
  refine ⟨?_, ?_, ?_, ?_⟩ <;>
    rw [strStarts_app3_eq _ _ _ _ _ (by decide)] <;> decide

/-! ### Claim theorems -/

/-- C1 counterexample: the lowercased text `"re-count re-commits"`
satisfies the count-commits template predicate, so the claim demands
that template's SQL; but every token is discarded by normalization
(`how`-style stopwords aside, hyphenated words fail `isalnum`), and
`build_sql_query` returns the EmptyInput error instead, because the
empty-token check precedes the template bank. -/
theorem c1_counterexample :
    (templateBank.find?
      (fun t => t.pred (pyLower "re-count re-commits"))).isSome = true ∧
    build_sql_query "re-count re-commits" none =
      "Error: Could not process the input text" := ⟨rfl, rfl⟩

/-- C1 (amended): for every input whose normalization yields at least
one token, if some special-case template predicate holds on the
lowercased text then the first such template in declared order renders
the entire result, so later templates and the generic path (entity
resolution, column selection, condition matching, generic assembly)
contribute nothing. -/
theorem c1_first_template_wins (text : String) (repo : Option Int)
    (t : Template) (hne : preprocess_text text ≠ [])
    (hfind : templateBank.find?
      (fun tp => tp.pred (pyLower text)) = some t) :
    build_sql_query text repo = t.render (pyLower text) repo := by
  rw [build_eq_nonempty text repo hne, hfind]

/-- C1 witness: `"how many commits"` keeps the token `commits`, its
first matching template is the count-commits one, and the compiled
output is exactly that template's rendering. -/
theorem c1_witness :
    build_sql_query "how many commits" none =
      tCountCommits.render (pyLower "how many commits") none :=
  c1_first_template_wins "how many commits" none tCountCommits
    (by decide) rfl

/-- C2 counterexample: `"re-count co-authors"` satisfies the
count-contributors template predicate on its raw lowercased text, yet
is rejected with the EmptyInput error because its tokens are all
discarded — the claim says such an input is compiled by the
template. -/
theorem c2_counterexample :
    (templateBank.find?
      (fun t => t.pred (pyLower "re-count co-authors"))).isSome = true ∧
    build_sql_query "re-count co-authors" none =
      "Error: Could not process the input text" := ⟨rfl, rfl⟩

/-- C2 (amended): `build_sql_query` returns the EmptyInput error
exactly when normalization yields no usable tokens — template
predicates are irrelevant to this check, which runs first.  In
particular empty and whitespace-only inputs (whose token lists are
empty) yield EmptyInput, and no input ever produces it by another
route. -/
theorem c2_empty_input_iff (text : String) (repo : Option Int) :
    build_sql_query text repo = "Error: Could not process the input text" ↔
    preprocess_text text = [] := by
  constructor
  · intro h
    by_contra hne
    rcases build_nonempty_cases text repo hne with hs | hn
    · exact (strStarts_SELECT_ne_errors _ hs).1 h
    · rw [h] at hn
      exact absurd hn (by decide)
  · intro h
    unfold build_sql_query
    rw [h]
    rfl

/-- C9: the compiler is a total function whose result is always either
a SQL statement (starting with `SELECT`) or one of the three error
strings of the taxonomy (EmptyInput, NoEntity, InternalFault); the
matcher-level `except` handlers of the source are modelled by the safe
defaults of the embedded matchers, so no fault escapes. -/
theorem c9_terminal_outputs (text : String) (repo : Option Int) :
    strStarts (build_sql_query text repo) "SELECT" = true ∨
    build_sql_query text repo ∈
      ["Error: Could not process the input text",
       "Error: Could not identify the table",
       "Error: Could not generate SQL query"] := by
  rcases build_result_cases text repo with h | h | h
  · exact Or.inr (by rw [h]; exact List.mem_cons_self _ _)
  · exact Or.inr
      (by rw [h]; exact List.mem_cons_of_mem _ (List.mem_cons_self _ _))
  · exact Or.inl h

/-- C3 counterexample: the `top contributors by commit` template
ignores a supplied repo_id entirely — with repo_id 42 the rendered SQL
carries no WHERE clause at all, where the claim demands a repo_id
scoping clause. -/
theorem c3_counterexample :
    build_sql_query "top contributors by commit" (some 42) =
      "SELECT authors.name, COUNT(commits.commit_id) as commit_count FROM authors JOIN commits ON authors.author_id = commits.author_id GROUP BY authors.author_id, authors.name ORDER BY commit_count DESC LIMIT 10;" ∧
    containsSub (build_sql_query "top contributors by commit" (some 42))
      "WHERE" = false := ⟨rfl, rfl⟩

/-- C3 (amended): the eleven repo-scoped templates (bug introducer,
most changed/added/deleted file, top-N files, top contributor,
bottom-N contributors, count commits, count contributors, commit with
most changes, bug fixer) render a WHERE clause when a repo_id is
supplied and omit the WHERE clause entirely when it is not; the
remaining six templates do not follow the claimed discipline (four
ignore repo_id, two always carry a timestamp WHERE clause). -/
theorem c3_scoped_where (tl : String) (r : Int) :
    (containsSub (tBugIntro.render tl (some r)) "WHERE" = true ∧
     containsSub (tBugIntro.render tl none) "WHERE" = false) ∧
    (containsSub (tMostChangedFile.render tl (some r)) "WHERE" = true ∧
     containsSub (tMostChangedFile.render tl none) "WHERE" = false) ∧
    (containsSub (tMostAdded.render tl (some r)) "WHERE" = true ∧
     containsSub (tMostAdded.render tl none) "WHERE" = false) ∧
    (containsSub (tMostDeleted.render tl (some r)) "WHERE" = true ∧
     containsSub (tMostDeleted.render tl none) "WHERE" = false) ∧
    (containsSub (tTopNFiles.render tl (some r)) "WHERE" = true ∧
     containsSub (tTopNFiles.render tl none) "WHERE" = false) ∧
    (containsSub (tTopContributor.render tl (some r)) "WHERE" = true ∧
     containsSub (tTopContributor.render tl none) "WHERE" = false) ∧
    (containsSub (tBottomNContributors.render tl (some r)) "WHERE" = true ∧
     containsSub (tBottomNContributors.render tl none) "WHERE" = false) ∧
    (containsSub (tCountCommits.render tl (some r)) "WHERE" = true ∧
     containsSub (tCountCommits.render tl none) "WHERE" = false) ∧
    (containsSub (tCountContributors.render tl (some r)) "WHERE" = true ∧
     containsSub (tCountContributors.render tl none) "WHERE" = false) ∧
    (containsSub (tCommitMostChanges.render tl (some r)) "WHERE" = true ∧
     containsSub (tCommitMostChanges.render tl none) "WHERE" = false) ∧
    (containsSub (tBugFixer.render tl (some r)) "WHERE" = true ∧
     containsSub (tBugFixer.render tl none) "WHERE" = false) := by
  refine ⟨⟨?_, ?_⟩, ⟨?_, ?_⟩, ⟨?_, ?_⟩, ⟨?_, ?_⟩, ⟨?_, ?_⟩, ⟨?_, ?_⟩,
    ⟨?_, ?_⟩, ⟨?_, ?_⟩, ⟨?_, ?_⟩, ⟨?_, ?_⟩, ⟨?_, ?_⟩⟩
  · dsimp only [tBugIntro]
    exact containsSub_append_left _ _ _
      (containsSub_append_left _ _ _ (by decide))
  · rfl
  · dsimp only [tMostChangedFile]
    exact containsSub_WHERE_mid _ _ r
  · rfl
  · dsimp only [tMostAdded]
    exact containsSub_WHERE_mid _ _ r
  · rfl
  · dsimp only [tMostDeleted]
    exact containsSub_WHERE_mid _ _ r
  · rfl
  · dsimp only [tTopNFiles]
    exact containsSub_append_left _ _ _
      (containsSub_append_left _ _ _ (containsSub_WHERE_mid _ _ r))
  · dsimp only [tTopNFiles]
    apply not_containsSub_WHERE
    intro hmem
    simp only [toList_append, List.mem_append] at hmem
    rcases hmem with ((((h | h) | h) | h) | h)
    · exact absurd h (by decide)
    · exact absurd h (by decide)
    · exact absurd h (by decide)
    · exact absurd rfl (topNum_getD_digits tl 'W' h)
    · exact absurd h (by decide)
  · dsimp only [tTopContributor]
    exact containsSub_WHERE_mid _ _ r
  · rfl
  · dsimp only [tBottomNContributors]
    exact containsSub_append_left _ _ _
      (containsSub_append_left _ _ _ (containsSub_WHERE_mid _ _ r))
  · dsimp only [tBottomNContributors]
    apply not_containsSub_WHERE
    intro hmem
    simp only [toList_append, List.mem_append] at hmem
    rcases hmem with ((((h | h) | h) | h) | h)
    · exact absurd h (by decide)
    · exact absurd h (by decide)
    · exact absurd h (by decide)
    · exact absurd rfl (bottomNum_getD_digits tl 'W' h)
    · exact absurd h (by decide)
  · dsimp only [tCountCommits]
    apply containsSub_append_left
    apply containsSub_append_right
    exact containsSub_of_strStarts _ _
      (strStarts_append _ _ _ (strStarts_append _ _ _ (by decide)))
  · rfl
  · dsimp only [tCountContributors]
    exact containsSub_append_left _ _ _
      (containsSub_append_left _ _ _ (by decide))
  · rfl
  · dsimp only [tCommitMostChanges]
    exact containsSub_WHERE_mid _ _ r
  · rfl
  · dsimp only [tBugFixer]
    exact containsSub_WHERE_mid _ _ r
  · rfl

/-- C4 counterexample: in `"Show repositories with more than 1000
stars"` the retained token `stars` matches the base name of the
`stars` column, so the column matcher returns the explicit column
`["stars"]`, not the claimed default repository list. -/
theorem c4_counterexample :
    identify_columns
      (preprocess_text "Show repositories with more than 1000 stars")
      (some "repositories") = ["stars"] ∧
    (["stars"] : List String) ≠ ["repo_id", "name", "stars", "forks"] :=
  ⟨rfl, by decide⟩

/-- C4 (amended): `"Show repositories with more than 1000 stars"`
takes the generic path (no template matches), resolves to table
`repositories`, yields the single filter `stars >= 1000` and action
SELECT, and selects the explicitly mentioned column `stars` (the token
`stars` matches that column's base name), so the default repository
column list is not used. -/
theorem c4_generic_scenario :
    templateBank.find?
      (fun t =>
        t.pred (pyLower "Show repositories with more than 1000 stars")) =
      none ∧
    identify_action
      (preprocess_text "Show repositories with more than 1000 stars") =
      "SELECT" ∧
    identify_table
      (preprocess_text "Show repositories with more than 1000 stars") =
      some "repositories" ∧
    identify_conditions "Show repositories with more than 1000 stars" =
      ["stars >= 1000"] ∧
    build_sql_query "Show repositories with more than 1000 stars" none =
      "SELECT stars FROM repositories WHERE stars >= 1000;" :=
  ⟨rfl, rfl, rfl, rfl, rfl⟩

/-- C5 counterexample: the compiled string is not the claimed one —
the template's scoping fragment carries a trailing space, so a space
precedes the final semicolon. -/
theorem c5_counterexample :
    build_sql_query "how many commits" (some 42) ≠
      "SELECT COUNT(*) AS total_commits FROM commits WHERE repo_id = 42;" := by
  decide

/-- C5 (amended): `"how many commits"` with repo_id 42 compiles to
exactly the count-commits template output, which has a space between
`42` and the terminating semicolon. -/
theorem c5_count_commits_repo42 :
    build_sql_query "how many commits" (some 42) =
      "SELECT COUNT(*) AS total_commits FROM commits WHERE repo_id = 42 ;" :=
  rfl

/-- C6 counterexample: with `more than 10 stars and less than 5
forks`, the fork condition uses `>=`, not the `<=` demanded by the
fork metric's own directional phrase — the direction words are
resolved against the whole text, with more/greater taking
precedence. -/
theorem c6_counterexample :
    identify_conditions
      "repositories with more than 10 stars and less than 5 forks" =
      ["stars >= 10", "forks >= 5"] ∧
    "forks <= 5" ∉ identify_conditions
      "repositories with more than 10 stars and less than 5 forks" :=
  ⟨rfl, by decide⟩

/-- C6 (amended): for every input in which a numeric star (resp. fork)
count is recognized, the condition list contains exactly one condition
for that metric, and its comparison operator is the one determined by
the directional phrases of the whole text (`more than`/`greater than`
anywhere → `>=`, else `less than` anywhere → `<=`, else `=`) — not by
the phrase adjacent to the metric; stars and forks are detected
independently, so both conditions may appear, in that order. -/
theorem c6_direction_global (text : String) :
    (∀ n, starNum (pyLower text) = some n →
      (identify_conditions text).countP
        (fun c => strStarts c "stars ") = 1 ∧
      ("stars " ++ gOp (pyLower text) ++ " " ++ n) ∈
        identify_conditions text) ∧
    (∀ n, forkNum (pyLower text) = some n →
      (identify_conditions text).countP
        (fun c => strStarts c "forks ") = 1 ∧
      ("forks " ++ gOp (pyLower text) ++ " " ++ n) ∈
        identify_conditions text) := by
  have htime := timeConds_shape (pyLower text)
  constructor
  · intro n hn
    have hs := starConds_eq_of_some _ n hn
    have hforkshape : forkConds (pyLower text) = [] ∨
        ∃ m, forkConds (pyLower text) =
          ["forks " ++ gOp (pyLower text) ++ " " ++ m] := by
      cases hf : forkNum (pyLower text) with
      | none => exact Or.inl (forkConds_eq_nil _ hf)
      | some m => exact Or.inr ⟨m, forkConds_eq_of_some _ m hf⟩
    constructor
    · unfold identify_conditions
      rw [hs, List.countP_append, List.countP_append]
      have e1 : List.countP (fun c => strStarts c "stars ")
          ["stars " ++ gOp (pyLower text) ++ " " ++ n] = 1 := by
        simp [List.countP_cons, (metric_elem_starts _ _).1]
      have e2 : List.countP (fun c => strStarts c "stars ")
          (forkConds (pyLower text)) = 0 := by
        rcases hforkshape with hf | ⟨m, hf⟩ <;> rw [hf]
        · rfl
        · simp [List.countP_cons,
            (metric_elem_starts (gOp (pyLower text)) m).2.2.2]
      have e3 : List.countP (fun c => strStarts c "stars ")
          (timeConds (pyLower text)) = 0 := by
        rcases htime with ht | ⟨u, ht, hu1, _⟩ <;> rw [ht]
        · rfl
        · simp [List.countP_cons, hu1]
      rw [e1, e2, e3]
    · unfold identify_conditions
      rw [hs]
      exact List.mem_append_left _ (List.mem_append_left _
        (List.mem_cons_self _ _))
  · intro m hm
    have hf := forkConds_eq_of_some _ m hm
    have hstarshape : starConds (pyLower text) = [] ∨
        ∃ n, starConds (pyLower text) =
          ["stars " ++ gOp (pyLower text) ++ " " ++ n] := by
      cases hst : starNum (pyLower text) with
      | none => exact Or.inl (starConds_eq_nil _ hst)
      | some n => exact Or.inr ⟨n, starConds_eq_of_some _ n hst⟩
    constructor
    · unfold identify_conditions
      rw [hf, List.countP_append, List.countP_append]
      have e1 : List.countP (fun c => strStarts c "forks ")
          ["forks " ++ gOp (pyLower text) ++ " " ++ m] = 1 := by
        simp [List.countP_cons, (metric_elem_starts _ _).2.2.1]
      have e2 : List.countP (fun c => strStarts c "forks ")
          (starConds (pyLower text)) = 0 := by
        rcases hstarshape with hst | ⟨n, hst⟩ <;> rw [hst]
        · rfl
        · simp [List.countP_cons,
            (metric_elem_starts (gOp (pyLower text)) n).2.1]
      have e3 : List.countP (fun c => strStarts c "forks ")
          (timeConds (pyLower text)) = 0 := by
        rcases htime with ht | ⟨u, ht, _, hu2⟩ <;> rw [ht]
        · rfl
        · simp [List.countP_cons, hu2]
      rw [e1, e2, e3]
    · unfold identify_conditions
      rw [hf]
      exact List.mem_append_left _ (List.mem_append_right _
        (List.mem_cons_self _ _))

/-- C6 witness: with `"more than 10 stars"` the star hypothesis holds
with n = 10 and the theorem yields the unique `stars >= 10`
condition. -/
theorem c6_witness :
    (identify_conditions "more than 10 stars").countP
      (fun c => strStarts c "stars ") = 1 ∧
    ("stars " ++ gOp (pyLower "more than 10 stars") ++ " " ++ "10") ∈
      identify_conditions "more than 10 stars" :=
  (c6_direction_global "more than 10 stars").1 "10" rfl

/-- C7: entity resolution is order-stable — whenever the entity at
index i of the catalog matches the token set and no earlier entity
does, its table is returned, deterministically; in particular, for
tokens matching two entities, the earlier-declared one wins. -/
theorem c7_entity_order_stable (ws : List String) (i : Nat)
    (e : EntityInfo) (hget : entityMapping.get? i = some e)
    (hmatch : e.patterns.any (fun p => ws.contains p) = true)
    (hearlier : (entityMapping.take i).all
      (fun e2 => !(e2.patterns.any (fun p => ws.contains p))) = true) :
    identify_table ws = some e.table := by
  unfold identify_table
  rw [find?_of_take_all _ entityMapping i e hget hmatch hearlier]
  rfl

/-- C7 witness: the token `changes` appears in the synonym sets of
both the commit entity (index 2) and the diff entity (index 4); the
earlier-declared commit entity wins, giving table `commits`. -/
theorem c7_witness : identify_table ["changes"] = some "commits" :=
  c7_entity_order_stable ["changes"] 2
    ⟨"commit", ["commit", "commits", "change", "changes"], "commits",
      ["commit_id", "hash", "author_id", "repo_id", "timestamp",
       "message"]⟩ rfl (by decide) (by decide)

/-- C8: `identify_table` only ever returns one of the five lowercased
table names, none of which equals the capitalized `Repository` or
`Author` tested by the generic assembler's GROUP BY branch, so that
branch contributes the empty fragment for every grouping flag — the
branch is unreachable and generically assembled SQL never gains a
GROUP BY clause. -/
theorem c8_group_by_unreachable (words : List String) (t : String)
    (needs : Bool) (h : identify_table words = some t) :
    (t = "repositories" ∨ t = "authors" ∨ t = "commits" ∨ t = "files" ∨
      t = "diffs") ∧ groupByFragment needs t = "" := by
  unfold identify_table at h
  cases hf : entityMapping.find?
      (fun e : EntityInfo => e.patterns.any (fun p => words.contains p)) with
  | none => rw [hf] at h; exact absurd h (by simp)
  | some e =>
    rw [hf] at h
    simp only [Option.map_some', Option.some.injEq] at h
    subst h
    have hmem := List.mem_of_find?_eq_some hf
    have htab : e.table = "repositories" ∨ e.table = "authors" ∨
        e.table = "commits" ∨ e.table = "files" ∨ e.table = "diffs" := by
      fin_cases hmem <;> decide
    refine ⟨htab, ?_⟩
    unfold groupByFragment
    rcases htab with h | h | h | h | h <;> rw [h] <;> cases needs <;> rfl

/-- C8 witness: the commit table resolved from the token `commits`
yields an empty GROUP BY fragment even with the grouping flag set. -/
theorem c8_witness : groupByFragment true "commits" = "" :=
  (c8_group_by_unreachable ["commits"] "commits" true rfl).2

/-- C10 counterexample: `"show count files"` keeps the token `count`,
matches no template and resolves to the files table, but the action is
plain SELECT because the keyword `show` is found first, so the output
is the well-formed `SELECT COUNT(*) FROM files;` and not the doubled
aggregate the claim predicts for every input containing `count`. -/
theorem c10_counterexample :
    (preprocess_text "show count files").contains "count" = true ∧
    templateBank.find?
      (fun t => t.pred (pyLower "show count files")) = none ∧
    identify_table (preprocess_text "show count files") = some "files" ∧
    build_sql_query "show count files" none =
      "SELECT COUNT(*) FROM files;" ∧
    strStarts (build_sql_query "show count files" none)
      "SELECT COUNT(*) COUNT(*) FROM " = false :=
  ⟨rfl, rfl, rfl, rfl, rfl⟩

/-- C10 (amended): on the generic path, for every input whose retained
tokens include `count` and whose action resolves to `SELECT COUNT(*)`
(i.e. no SELECT-family keyword precedes `count` among the tokens), the
column matcher independently returns `["COUNT(*)"]` and both are
rendered, so the statement begins `SELECT COUNT(*) COUNT(*) FROM ` —
the aggregate appears twice and the output is not well-formed SQL. -/
theorem c10_doubled_aggregate (text : String) (repo : Option Int)
    (tb : String) (hne : preprocess_text text ≠ [])
    (hnt : templateBank.find? (fun t => t.pred (pyLower text)) = none)
    (hcnt : (preprocess_text text).contains "count" = true)
    (hact : identify_action (preprocess_text text) = "SELECT COUNT(*)")
    (htab : identify_table (preprocess_text text) = some tb) :
    strStarts (build_sql_query text repo)
      "SELECT COUNT(*) COUNT(*) FROM " = true := by
  have hcols : identify_columns (preprocess_text text) (some tb) =
      ["COUNT(*)"] := by
    unfold identify_columns
    rw [if_pos]
    exact List.any_eq_true.mpr ⟨"count", by simpa using hcnt, by decide⟩
  rw [build_eq_nonempty text repo hne, hnt]
  show strStarts (genericCompile (preprocess_text text) text) _ = true
  unfold genericCompile
  rw [htab]
  dsimp only
  rw [hact, hcols]
  have hq1 : ("SELECT COUNT(*)" : String) ++ " " ++
      String.intercalate ", " ["COUNT(*)"] ++ " FROM " ++ tb =
      "SELECT COUNT(*) COUNT(*) FROM " ++ tb := rfl
  rw [hq1]
  repeat' first
    | apply strStarts_append
    | split
  all_goals decide

/-- C10 witness: `"count files"` satisfies all the hypotheses and its
output starts with the doubled aggregate. -/
theorem c10_witness :
    strStarts (build_sql_query "count files" none)
      "SELECT COUNT(*) COUNT(*) FROM " = true :=
  c10_doubled_aggregate "count files" none "files" (by decide) rfl
    (by decide) rfl rfl

end EvoTrack
